import Mathlib

/-
Shallow embedding of the authentication-and-session core of the Praxis API
(apps/api/src: auth.rs, totp.rs, passkey.rs, session.rs).

Conventions of the embedding:
- UUIDs are modelled as `Nat`; timestamps as `Nat` (seconds).
- Database rows are records; the database is lists of rows in insertion
  order. SQL point lookups (`fetch_optional`) become `List.find?`, scans
  (`fetch_all`) become `List.filter`, and `UPDATE`/`DELETE` become `map`
  and `filter` over the row lists.
- Every axum handler `f(...) -> Result<T, (StatusCode, String)>` becomes a
  pure function returning `Except ApiError (newState × result)`. An `.error`
  outcome corresponds to an early `return Err(..)` in the source, which
  happens before any write in the modelled paths, so on `.error` every piece
  of state is unchanged.
- Randomness (fresh TOTP secrets, fresh backup codes, salts) is passed in
  as explicit oracle arguments, mirroring the call to the RNG at that spot.
- Argon2 is idealized as collision-free: a stored PHC string either parses
  (`good pw salt`, verifying exactly the plaintext `pw`) or is corrupt.
-/

namespace Praxis

/-- The `(StatusCode, String)` error pair every handler returns on failure. -/
structure ApiError where
  status : Nat
  message : String
deriving Repr, DecidableEq

/-- An Argon2 PHC hash string as stored in the database. `good pw salt`
abstracts a well-formed hash of plaintext `pw` with a random salt;
`corrupt raw` abstracts an unparseable stored value. `PasswordHash::new`
succeeds exactly on `good` values, and `verify_password` succeeds exactly
when the submitted plaintext equals `pw` (argon2 idealized as
collision-free). -/
inductive StoredHash where
  | good (pw : String) (salt : Nat)
  | corrupt (raw : String)
deriving Repr, DecidableEq

/-- Whether `PasswordHash::new` succeeds on this stored value. -/
def StoredHash.parses : StoredHash → Bool
  | .good _ _ => true
  | .corrupt _ => false

/-- Whether `Argon2::verify_password(pw, hash)` succeeds. -/
def StoredHash.verifies (h : StoredHash) (pw : String) : Bool :=
  match h with
  | .good p _ => pw == p
  | .corrupt _ => false

/-- The plaintext a good hash commits to, if any. -/
def StoredHash.plain? : StoredHash → Option String
  | .good p _ => some p
  | .corrupt _ => none

/-- A row of the `users` table. -/
structure UserRow where
  id : Nat
  username : String
  displayName : String
deriving Repr, DecidableEq

/-- A row of the `local_auths` table (verification columns omitted: no
claim mentions them). -/
structure LocalAuthRow where
  userId : Nat
  email : String
  passwordHash : StoredHash
deriving Repr, DecidableEq

/-- A row of the `totp_secrets` table. -/
structure TotpSecretRow where
  userId : Nat
  secret : String
  enabled : Bool
deriving Repr, DecidableEq

/-- A row of the `backup_codes` table. -/
structure BackupCodeRow where
  id : Nat
  userId : Nat
  codeHash : StoredHash
  used : Bool
deriving Repr, DecidableEq

/-- A row of the `passkey_credentials` table. The serialized `public_key`
blob is modelled by the fields the ceremony reads and writes: the
credential's signature counter. -/
structure PasskeyRow where
  id : Nat
  userId : Nat
  credentialId : String
  counter : Nat
  lastUsedAt : Option Nat
deriving Repr, DecidableEq

/-- A row of the `active_sessions` table. -/
structure ActiveSessionRow where
  id : Nat
  userId : Nat
  sessionId : String
  userAgent : Option String
  ipAddress : Option String
  lastActiveAt : Nat
  expiresAt : Nat
  createdAt : Nat
deriving Repr, DecidableEq

/-- The Postgres database. `nextId` generates fresh primary keys. The
`tower_sessions.session` table (the opaque session store) is modelled as
the list of live session-store ids. -/
structure Db where
  users : List UserRow
  localAuths : List LocalAuthRow
  totpSecrets : List TotpSecretRow
  backupCodes : List BackupCodeRow
  passkeyCredentials : List PasskeyRow
  activeSessions : List ActiveSessionRow
  sessionStore : List String
  nextId : Nat
deriving Repr, DecidableEq

/-- The caller's `tower_sessions::Session`: its store id (`session.id()`)
and the keys the auth core reads and writes. `passkeyAuthSnapshot` is the
`passkey_auth_state` blob: the webauthn-rs authentication state, which
carries the credential set captured at `start_authentication` as
(credential id, signature counter) pairs. -/
structure SessionState where
  sessionId : Option String
  userId : Option Nat
  pending2faUserId : Option Nat
  passkeyAuthSnapshot : Option (List (String × Nat))
deriving Repr, DecidableEq

/-- The request headers `create_session` reads. -/
structure RequestHeaders where
  userAgent : Option String
  xForwardedFor : Option String
deriving Repr, DecidableEq

/-- Fixed session expiry used by every finalization site:
`Utc::now() + chrono::Duration::hours(24)`. -/
def sessionTtl : Nat := 24 * 3600

/-- Stand-in for the HMAC-SHA1 six-digit code of `totp_rs` at a 30-second
time step. Every theorem below depends only on how `checkCurrent` windows
this function, never on its internals. -/
def totpGen (secret : String) (step : Nat) : String :=
  toString ((secret.length * 7 + step * 13) % 1000000)

/-- The check `TOTP::check_current(code)` of a `TOTP::new(SHA1, 6, 1, 30, ..)`
instance: skew 1 accepts the code of the current 30-second step or of one
step on either side. -/
def checkCurrent (secret code : String) (now : Nat) : Bool :=
  let step := now / 30
  (totpGen secret step == code)
    || (decide (0 < step) && (totpGen secret (step - 1) == code))
    || (totpGen secret (step + 1) == code)

/-- The lookup `SELECT .. FROM local_auths WHERE email = $1` (`fetch_optional`). -/
def findLocalAuthByEmail (db : Db) (email : String) : Option LocalAuthRow :=
  db.localAuths.find? (fun la => la.email == email)

/-- The lookup `SELECT .. FROM totp_secrets WHERE user_id = $1` (`fetch_optional`). -/
def findTotp (db : Db) (uid : Nat) : Option TotpSecretRow :=
  db.totpSecrets.find? (fun r => r.userId == uid)

/-- totp.rs `has_2fa_enabled`: the `enabled` flag of the user's
`totp_secrets` row, `false` when no row exists. -/
def has_2fa_enabled (db : Db) (uid : Nat) : Bool :=
  match findTotp db uid with
  | none => false
  | some r => r.enabled

/-- totp.rs `verify_totp_code`: `false` when no `totp_secrets` row exists
or the row is not enabled; otherwise `check_current` on the stored
secret. -/
def verify_totp_code (db : Db) (uid : Nat) (code : String) (now : Nat) : Bool :=
  match findTotp db uid with
  | none => false
  | some r =>
    if !r.enabled then false
    else checkCurrent r.secret code now

/-- The loop body of `verify_and_consume_backup_code`: walk the fetched
candidate rows in order; parse each hash (`PasswordHash::new`, a 500 on
failure), and return the id of the first row whose hash verifies the
submitted code. -/
def scanBackupCodes (code : String) : List BackupCodeRow → Except ApiError (Option Nat)
  | [] => .ok none
  | r :: rs =>
    if !r.codeHash.parses then .error ⟨500, "password hash parse error"⟩
    else if r.codeHash.verifies code then .ok (some r.id)
    else scanBackupCodes code rs

/-- The statement `UPDATE backup_codes SET used = true WHERE id = $1`. -/
def markBackupCodeUsed (db : Db) (rowId : Nat) : Db :=
  { db with
      backupCodes := db.backupCodes.map (fun r =>
        if r.id == rowId then { r with used := true } else r) }

/-- totp.rs `verify_and_consume_backup_code`: fetch the user's unused
rows (`WHERE user_id = $1 AND used = false`), scan them, and on the first
hash match mark that single row used and stop. -/
def verify_and_consume_backup_code (db : Db) (uid : Nat) (code : String) :
    Except ApiError (Db × Bool) :=
  let candidates := db.backupCodes.filter (fun r => r.userId == uid && !r.used)
  match scanBackupCodes code candidates with
  | .error e => .error e
  | .ok none => .ok (db, false)
  | .ok (some i) => .ok (markBackupCodeUsed db i, true)

/-- totp.rs `verify_totp` (second-factor completion): requires the
`pending_2fa_user_id` session key; tries the code as TOTP, then as a
backup code; on failure returns 401 "Invalid code" and leaves the pending
key in place; on success sets the `user_id` session key to the pending
user and removes the pending key. No session-record write occurs in this
handler. -/
def verify_totp (db : Db) (sess : SessionState) (now : Nat) (code : String) :
    Except ApiError (Db × SessionState) :=
  match sess.pending2faUserId with
  | none => .error ⟨400, "No 2FA pending"⟩
  | some uid =>
    if verify_totp_code db uid code now then
      .ok (db, { sess with userId := some uid, pending2faUserId := none })
    else
      match verify_and_consume_backup_code db uid code with
      | .error e => .error e
      | .ok (_, false) => .error ⟨401, "Invalid code"⟩
      | .ok (db', true) =>
        .ok (db', { sess with userId := some uid, pending2faUserId := none })

/-- The `INSERT .. ON CONFLICT (user_id) DO UPDATE` of `setup_totp`:
store the fresh secret not-yet-enabled, replacing any prior row. -/
def upsertTotpSecret (db : Db) (uid : Nat) (secret : String) : Db :=
  if (findTotp db uid).isSome then
    { db with
        totpSecrets := db.totpSecrets.map (fun r =>
          if r.userId == uid then { r with secret := secret, enabled := false } else r) }
  else
    { db with totpSecrets := db.totpSecrets ++ [⟨uid, secret, false⟩] }

/-- totp.rs `setup_totp`: requires a logged-in session, looks the user up
for the provisioning label, generates a fresh secret (passed in as
`freshSecret`), stores it with `enabled = false`, and returns it. -/
def setup_totp (db : Db) (sess : SessionState) (freshSecret : String) :
    Except ApiError (Db × String) :=
  match sess.userId with
  | none => .error ⟨401, "Not logged in"⟩
  | some uid =>
    match db.users.find? (fun u => u.id == uid) with
    | none => .error ⟨500, "user row missing"⟩
    | some _ => .ok (upsertTotpSecret db uid freshSecret, freshSecret)

/-- totp.rs `generate_backup_codes`: delete the user's existing rows,
then insert 10 fresh random 8-character codes (the randomness oracle
`fresh` gives the i-th code, `saltOf` its salt), returning the
plaintexts. -/
def generate_backup_codes (db : Db) (uid : Nat) (fresh : Nat → String)
    (saltOf : Nat → Nat) : Db × List String :=
  let remaining := db.backupCodes.filter (fun r => !(r.userId == uid))
  let newRows := (List.range 10).map (fun i =>
    BackupCodeRow.mk (db.nextId + i) uid (.good (fresh i) (saltOf i)) false)
  ({ db with backupCodes := remaining ++ newRows, nextId := db.nextId + 10 },
    (List.range 10).map fresh)

/-- totp.rs `enable_totp`: requires a logged-in session and an existing
`totp_secrets` row; checks the submitted code against the stored secret
with `check_current`; a failing code is a 400 "Invalid code" before any
write; a passing code flips `enabled` to true and regenerates the backup
codes, returning them. -/
def enable_totp (db : Db) (sess : SessionState) (now : Nat) (code : String)
    (fresh : Nat → String) (saltOf : Nat → Nat) :
    Except ApiError (Db × List String) :=
  match sess.userId with
  | none => .error ⟨401, "Not logged in"⟩
  | some uid =>
    match findTotp db uid with
    | none => .error ⟨400, "TOTP not set up"⟩
    | some r =>
      if !(checkCurrent r.secret code now) then .error ⟨400, "Invalid code"⟩
      else
        let db1 : Db :=
          { db with
              totpSecrets := db.totpSecrets.map (fun t =>
                if t.userId == uid then { t with enabled := true } else t) }
        .ok (generate_backup_codes db1 uid fresh saltOf)

/-- totp.rs `disable_totp`: requires a logged-in session and a currently
valid code via `verify_totp_code`; on failure a 400 "Invalid code" before
any write; on success deletes the secret row and all backup codes. -/
def disable_totp (db : Db) (sess : SessionState) (now : Nat) (code : String) :
    Except ApiError Db :=
  match sess.userId with
  | none => .error ⟨401, "Not logged in"⟩
  | some uid =>
    if !(verify_totp_code db uid code now) then .error ⟨400, "Invalid code"⟩
    else
      .ok { db with
              totpSecrets := db.totpSecrets.filter (fun r => !(r.userId == uid)),
              backupCodes := db.backupCodes.filter (fun r => !(r.userId == uid)) }

/-- totp.rs `regenerate_backup_codes`: requires a logged-in session and a
currently valid TOTP code; on failure a 400 "Invalid code" before any
write; on success regenerates the batch and returns the fresh codes. -/
def regenerate_backup_codes (db : Db) (sess : SessionState) (now : Nat)
    (code : String) (fresh : Nat → String) (saltOf : Nat → Nat) :
    Except ApiError (Db × List String) :=
  match sess.userId with
  | none => .error ⟨401, "Not logged in"⟩
  | some uid =>
    if !(verify_totp_code db uid code now) then .error ⟨400, "Invalid code"⟩
    else .ok (generate_backup_codes db uid fresh saltOf)

/-- The client IP `create_session` records: the first entry of
`x-forwarded-for` when present, else the fallback argument. -/
def headerIp (h : RequestHeaders) (fallback : Option String) : Option String :=
  match h.xForwardedFor with
  | some s => some (((s.splitOn ",").headD s).trim)
  | none => fallback

/-- session.rs `create_session`: `INSERT INTO active_sessions .. ON
CONFLICT (session_id) DO UPDATE SET last_active_at, user_agent,
ip_address, expires_at` keyed on the external session id. -/
def create_session (db : Db) (uid : Nat) (sid : String) (h : RequestHeaders)
    (ip : Option String) (now expiresAt : Nat) : Db :=
  let ua := h.userAgent
  let ipAddr := headerIp h ip
  if db.activeSessions.any (fun r => r.sessionId == sid) then
    { db with
        activeSessions := db.activeSessions.map (fun r =>
          if r.sessionId == sid then
            { r with lastActiveAt := now, userAgent := ua,
                     ipAddress := ipAddr, expiresAt := expiresAt }
          else r) }
  else
    { db with
        activeSessions := db.activeSessions
          ++ [ActiveSessionRow.mk db.nextId uid sid ua ipAddr now expiresAt now],
        nextId := db.nextId + 1 }

/-- Outcome of a successful password login. -/
inductive LoginOutcome where
  | success
  | requires2fa
deriving Repr, DecidableEq

/-- auth.rs `login`: look the email up in `local_auths` (absence, a
corrupt stored hash, and a wrong password all return the identical 401
"Invalid email or password"); with the password verified, a user with 2FA
enabled gets `pending_2fa_user_id` stored and a requires-2fa response
with no principal and no session record; otherwise the principal is set
and, when the session has an id, `create_session` upserts a record with
the fixed 24-hour expiry. -/
def login (db : Db) (sess : SessionState) (h : RequestHeaders) (now : Nat)
    (email password : String) :
    Except ApiError (Db × SessionState × LoginOutcome) :=
  match findLocalAuthByEmail db email with
  | none => .error ⟨401, "Invalid email or password"⟩
  | some la =>
    if !la.passwordHash.parses then
      .error ⟨401, "Invalid email or password"⟩
    else if !(la.passwordHash.verifies password) then
      .error ⟨401, "Invalid email or password"⟩
    else if has_2fa_enabled db la.userId then
      .ok (db, { sess with pending2faUserId := some la.userId }, .requires2fa)
    else
      let sess1 := { sess with userId := some la.userId }
      let db1 :=
        match sess.sessionId with
        | some sid => create_session db la.userId sid h none now (now + sessionTtl)
        | none => db
      .ok (db1, sess1, .success)

/-- The profile the Google userinfo endpoint returns. -/
structure GoogleProfile where
  email : String
  name : String
deriving Repr, DecidableEq

/-- The profile the GitHub user endpoint returns (the email may be
fetched separately from the emails endpoint; callbacks below take the
already-resolved email). -/
structure GithubProfile where
  name : Option String
  login : String
deriving Repr, DecidableEq

/-- The derivation `email.split('@').next().unwrap_or("user").to_lowercase()`. -/
def emailLocalPart (email : String) : String :=
  ((email.splitOn "@").headD "user").toLower

/-- The shared resolution core of both OAuth callbacks: look the resolved
email up in `local_auths`; reuse that user id when a row exists;
otherwise insert a new `users` row with the derived username — and no
`local_auths` row ("No local_auth record for OAuth users"). Returns the
database and the resolved user id. -/
def oauthResolveByEmail (db : Db) (email username displayName : String) :
    Db × Nat :=
  match findLocalAuthByEmail db email with
  | some la => (db, la.userId)
  | none =>
    let uid := db.nextId
    ({ db with users := db.users ++ [UserRow.mk uid username displayName],
               nextId := db.nextId + 1 },
      uid)

/-- The finalization tail shared by the OAuth callbacks: set the session
principal and, when the session has an id, upsert the session record with
the fixed 24-hour expiry. -/
def oauthFinalize (db : Db) (sess : SessionState) (h : RequestHeaders)
    (now uid : Nat) : Db × SessionState :=
  let sess1 := { sess with userId := some uid }
  let db1 :=
    match sess.sessionId with
    | some sid => create_session db uid sid h none now (now + sessionTtl)
    | none => db
  (db1, sess1)

/-- auth.rs `google_callback`, after the code-for-token exchange and
profile fetch (network effects taken as the `profile` argument): resolve
the email, derive the username from the lowercased email local part, and
finalize. Returns the resolved user id. -/
def google_callback (db : Db) (sess : SessionState) (h : RequestHeaders)
    (now : Nat) (profile : GoogleProfile) : Db × SessionState × Nat :=
  let (db1, uid) :=
    oauthResolveByEmail db profile.email (emailLocalPart profile.email) profile.name
  let (db2, sess1) := oauthFinalize db1 sess h now uid
  (db2, sess1, uid)

/-- auth.rs `github_callback`, after the exchange, profile fetch and
email resolution (taken as arguments): resolve the email, derive the
username from the lowercased GitHub login, display name falling back to
the login, and finalize. Returns the resolved user id. -/
def github_callback (db : Db) (sess : SessionState) (h : RequestHeaders)
    (now : Nat) (resolvedEmail : String) (profile : GithubProfile) :
    Db × SessionState × Nat :=
  let displayName := profile.name.getD profile.login
  let (db1, uid) :=
    oauthResolveByEmail db resolvedEmail profile.login.toLower displayName
  let (db2, sess1) := oauthFinalize db1 sess h now uid
  (db2, sess1, uid)

/-- A submitted WebAuthn assertion, reduced to the fields the finish step
inspects: the credential id it names, the authenticator's signature
counter, and whether the signature/challenge verification against the
stored ceremony state succeeds (`sigOk` abstracts the cryptographic
check). -/
structure Assertion where
  credId : String
  counter : Nat
  sigOk : Bool
deriving Repr, DecidableEq

/-- Modelled from the spec: the verification performed by the webauthn-rs
dependency (`Webauthn::finish_passkey_authentication` followed by
`Passkey::update_credential`), whose source is not part of this
repository. Per spec section 4.5, the signature is checked against the
stored challenge state and "acceptance requires the new counter to be
strictly greater than (or, if the authenticator does not support
counters, not decreasing from) the stored value"; an authenticator
without counter support always reports counter 0. Returns the counter to
store on success (`update_credential` keeps the larger value). -/
def finishPasskeyAssertion (storedCounter : Nat) (a : Assertion) : Option Nat :=
  if a.sigOk && ((storedCounter < a.counter) || (a.counter == 0 && storedCounter == 0)) then
    some (max storedCounter a.counter)
  else none

/-- passkey.rs `start_authentication`: requires at least one passkey
credential system-wide, and stores the webauthn-rs authentication state —
carrying the full candidate credential set with its counters — in the
session. -/
def start_authentication (db : Db) (sess : SessionState) :
    Except ApiError SessionState :=
  if db.passkeyCredentials.isEmpty then
    .error ⟨400, "No passkeys registered"⟩
  else
    .ok { sess with
            passkeyAuthSnapshot :=
              some (db.passkeyCredentials.map (fun r => (r.credentialId, r.counter))) }

/-- passkey.rs `finish_authentication`: requires the stored ceremony
state; looks the assertion's credential id up in `passkey_credentials`
(unknown ids are a 401 "Unknown credential"); verifies the assertion
against the ceremony state (a failure is a 401 beginning "Authentication
failed:"); on success writes the updated counter and `last_used_at` back
to the credential row, sets the session principal to the credential's
owner, discards the ceremony state, and upserts the session record with
the fixed 24-hour expiry. -/
def finish_authentication (db : Db) (sess : SessionState) (h : RequestHeaders)
    (ip : String) (now : Nat) (a : Assertion) :
    Except ApiError (Db × SessionState × Nat) :=
  match sess.passkeyAuthSnapshot with
  | none => .error ⟨400, "No authentication in progress"⟩
  | some snapshot =>
    match db.passkeyCredentials.find? (fun r => r.credentialId == a.credId) with
    | none => .error ⟨401, "Unknown credential"⟩
    | some row =>
      match snapshot.find? (fun p => p.1 == a.credId) with
      | none => .error ⟨401, "Authentication failed: credential not in ceremony"⟩
      | some snap =>
        match finishPasskeyAssertion snap.2 a with
        | none => .error ⟨401, "Authentication failed: assertion rejected"⟩
        | some newCounter =>
          let db1 : Db :=
            { db with
                passkeyCredentials := db.passkeyCredentials.map (fun r =>
                  if r.id == row.id then
                    { r with counter := max r.counter newCounter,
                             lastUsedAt := some now }
                  else r) }
          let sess1 := { sess with userId := some row.userId,
                                   passkeyAuthSnapshot := none }
          let db2 :=
            match sess.sessionId with
            | some sid => create_session db1 row.userId sid h (some ip) now (now + sessionTtl)
            | none => db1
          .ok (db2, sess1, row.userId)

/-- A sequence of later second-factor verification attempts against the
backup-code store: fold `verify_and_consume_backup_code` over a list of
submitted codes, keeping the state an errored attempt leaves untouched. -/
def consumeSteps (db : Db) (uid : Nat) : List String → Db
  | [] => db
  | c :: cs =>
    match verify_and_consume_backup_code db uid c with
    | .ok (db', _) => consumeSteps db' uid cs
    | .error _ => consumeSteps db uid cs

/-- Verification predicate: no unused backup-code row of `uid` matches the
plaintext `c` (and all of the user's unused rows parse). Once this holds,
a submission of `c` scans to the end and fails. -/
def noUnusedMatch (db : Db) (uid : Nat) (c : String) : Prop :=
  ∀ r ∈ db.backupCodes, r.userId = uid → r.used = false →
    r.codeHash.parses = true ∧ r.codeHash.verifies c = false

/-- session.rs `revoke_all_other_sessions`: requires a logged-in session
with a known session id; deletes every `active_sessions` row of the
caller whose `session_id` differs from the caller's own, then best-effort
deletes the matching session-store entries. -/
def revoke_all_other_sessions (db : Db) (sess : SessionState) :
    Except ApiError Db :=
  match sess.userId with
  | none => .error ⟨401, "Not logged in"⟩
  | some uid =>
    match sess.sessionId with
    | none => .error ⟨500, "Current session ID unknown"⟩
    | some sid =>
      let others := db.activeSessions.filter
        (fun r => r.userId == uid && !(r.sessionId == sid))
      .ok { db with
              activeSessions := db.activeSessions.filter
                (fun r => !(r.userId == uid && !(r.sessionId == sid))),
              sessionStore := db.sessionStore.filter
                (fun s => !(others.any (fun o => o.sessionId == s))) }

deriving instance DecidableEq for Except

/-! Helper lemmas about the embedding, shared across the claim theorems. -/

/-- A `find?` over a mapped row list, for maps that do not disturb the key
the predicate reads. -/
theorem find?_totp_map (l : List TotpSecretRow) (uid : Nat)
    (f : TotpSecretRow → TotpSecretRow) (hf : ∀ t, (f t).userId = t.userId) :
    (l.map f).find? (fun t => t.userId == uid) =
      (l.find? (fun t => t.userId == uid)).map f := by
  induction l with
  | nil => simp
  | cons x xs ih =>
    by_cases hx : x.userId == uid
    · rw [List.map_cons, List.find?_cons_of_pos, List.find?_cons_of_pos]
      · simp
      · exact hx
      · simpa [hf] using hx
    · rw [List.map_cons, List.find?_cons_of_neg, List.find?_cons_of_neg]
      · exact ih
      · simpa using hx
      · simpa [hf] using hx

/-- Verification only succeeds on a parseable hash. -/
theorem StoredHash.parses_of_verifies (s : StoredHash) (pw : String)
    (h : s.verifies pw = true) : s.parses = true := by
  cases s with
  | good p salt => rfl
  | corrupt raw => simp [StoredHash.verifies] at h

/-- C3: for every user with TOTP enabled, a password login with the correct
password stores the pending-2FA user id in the session and returns the
second-factor-required outcome, without setting the session principal and
without writing any row — in particular no ActiveSessionRecord is
created. -/
theorem login_totp_enabled_goes_pending
    (db : Db) (sess : SessionState) (h : RequestHeaders) (now : Nat)
    (email pw : String) (la : LocalAuthRow)
    (hla : findLocalAuthByEmail db email = some la)
    (hverify : la.passwordHash.verifies pw = true)
    (h2fa : has_2fa_enabled db la.userId = true) :
    login db sess h now email pw =
      .ok (db, { sess with pending2faUserId := some la.userId },
        .requires2fa) := by
  have hparse : la.passwordHash.parses = true :=
    StoredHash.parses_of_verifies _ _ hverify
  simp [login, hla, hparse, hverify, h2fa]

/-- C3 witness: a concrete TOTP-enabled user logging in with the correct
password gets the pending-2FA response and the database — including the
session records — is untouched. -/
theorem login_totp_enabled_goes_pending_witness :
    login (Db.mk [UserRow.mk 1 "alice" "Alice"]
        [LocalAuthRow.mk 1 "alice@x.com" (.good "pw1" 0)]
        [TotpSecretRow.mk 1 "S" true] [] [] [] [] 2)
      (SessionState.mk (some "sid9") none none none)
      (RequestHeaders.mk (some "UA") none) 0 "alice@x.com" "pw1" =
      .ok (Db.mk [UserRow.mk 1 "alice" "Alice"]
        [LocalAuthRow.mk 1 "alice@x.com" (.good "pw1" 0)]
        [TotpSecretRow.mk 1 "S" true] [] [] [] [] 2,
        SessionState.mk (some "sid9") none (some 1) none,
        .requires2fa) :=
  login_totp_enabled_goes_pending _ _ _ _ _ _
    (LocalAuthRow.mk 1 "alice@x.com" (.good "pw1" 0)) (by decide) (by decide)
    (by decide)

/-- C8: a login attempt against a corrupted (unparseable) stored password
hash fails with exactly the generic 401 "Invalid email or password" — the
same status and message a wrong password produces — and no internal error
reaches the caller. -/
theorem login_corrupt_hash_same_as_wrong_password
    (db : Db) (sess : SessionState) (h : RequestHeaders) (now : Nat)
    (email pw raw : String) (la : LocalAuthRow)
    (hla : findLocalAuthByEmail db email = some la)
    (hcorrupt : la.passwordHash = .corrupt raw) :
    login db sess h now email pw =
      .error ⟨401, "Invalid email or password"⟩ ∧
    (∀ db' sess' h' now' email' pw' la',
      findLocalAuthByEmail db' email' = some la' →
      la'.passwordHash.parses = true →
      la'.passwordHash.verifies pw' = false →
      login db' sess' h' now' email' pw' =
        .error ⟨401, "Invalid email or password"⟩) := by
  constructor
  · simp [login, hla, hcorrupt, StoredHash.parses]
  · intro db' sess' h' now' email' pw' la' hla' hparse' hverify'
    simp [login, hla', hparse', hverify']

/-- C8 witness: a user with a corrupted stored hash and a user with a good
hash but wrong submitted password both receive the identical 401
response. -/
theorem login_corrupt_hash_same_as_wrong_password_witness :
    login (Db.mk [UserRow.mk 1 "bob" "Bob"]
        [LocalAuthRow.mk 1 "bob@x.com" (.corrupt "garbage")]
        [] [] [] [] [] 2)
      (SessionState.mk (some "s1") none none none)
      (RequestHeaders.mk none none) 0 "bob@x.com" "whatever" =
      .error ⟨401, "Invalid email or password"⟩ ∧
    login (Db.mk [UserRow.mk 2 "carol" "Carol"]
        [LocalAuthRow.mk 2 "carol@x.com" (.good "right" 7)]
        [] [] [] [] [] 3)
      (SessionState.mk (some "s2") none none none)
      (RequestHeaders.mk none none) 0 "carol@x.com" "wrong" =
      .error ⟨401, "Invalid email or password"⟩ := by
  have hm := login_corrupt_hash_same_as_wrong_password
    (Db.mk [UserRow.mk 1 "bob" "Bob"]
      [LocalAuthRow.mk 1 "bob@x.com" (.corrupt "garbage")] [] [] [] [] [] 2)
    (SessionState.mk (some "s1") none none none)
    (RequestHeaders.mk none none) 0 "bob@x.com" "whatever" "garbage"
    (LocalAuthRow.mk 1 "bob@x.com" (.corrupt "garbage")) (by decide) (by decide)
  exact ⟨hm.1, hm.2
    (Db.mk [UserRow.mk 2 "carol" "Carol"]
      [LocalAuthRow.mk 2 "carol@x.com" (.good "right" 7)] [] [] [] [] [] 3)
    (SessionState.mk (some "s2") none none none)
    (RequestHeaders.mk none none) 0 "carol@x.com" "wrong"
    (LocalAuthRow.mk 2 "carol@x.com" (.good "right" 7))
    (by decide) (by decide) (by decide)⟩

/-- C9: `revoke_all_other_sessions` succeeds for an authenticated caller
with a known session id; the surviving records are exactly the original
list filtered to drop the caller's other sessions, so the record matching
the caller's own session identifier is kept unchanged, every record of
the caller with a different session identifier is removed, and no record
is invented. -/
theorem revoke_all_other_sessions_keeps_current
    (db : Db) (sess : SessionState) (uid : Nat) (sid : String)
    (hu : sess.userId = some uid) (hs : sess.sessionId = some sid) :
    ∃ db', revoke_all_other_sessions db sess = .ok db' ∧
      db'.activeSessions = db.activeSessions.filter
        (fun r => !(r.userId == uid && !(r.sessionId == sid))) ∧
      (∀ r ∈ db.activeSessions, r.sessionId = sid → r ∈ db'.activeSessions) ∧
      (∀ r ∈ db.activeSessions, r.userId = uid → r.sessionId ≠ sid →
        r ∉ db'.activeSessions) ∧
      (∀ r ∈ db'.activeSessions, r ∈ db.activeSessions) := by
  refine ⟨_, by rw [revoke_all_other_sessions, hu, hs], rfl, ?_, ?_, ?_⟩
  · intro r hr hcur
    simp only [List.mem_filter]
    exact ⟨hr, by simp [hcur]⟩
  · intro r hr huid hne hmem
    rcases List.mem_filter.mp hmem with ⟨-, hp⟩
    simp [huid, hne] at hp
  · intro r hr
    exact (List.mem_filter.mp hr).1

/-- C9 witness: with three records — the caller's own, another of the
caller's, and one belonging to a different user — only the caller's other
record is removed. -/
theorem revoke_all_other_sessions_keeps_current_witness :
    ∃ db', revoke_all_other_sessions
        (Db.mk [] [] [] [] []
          [ActiveSessionRow.mk 10 1 "mine" none none 0 100 0,
           ActiveSessionRow.mk 11 1 "other" none none 0 100 0,
           ActiveSessionRow.mk 12 2 "theirs" none none 0 100 0]
          ["mine", "other", "theirs"] 13)
        (SessionState.mk (some "mine") (some 1) none none) = .ok db' ∧
      db'.activeSessions =
        (Db.mk [] [] [] [] []
          [ActiveSessionRow.mk 10 1 "mine" none none 0 100 0,
           ActiveSessionRow.mk 11 1 "other" none none 0 100 0,
           ActiveSessionRow.mk 12 2 "theirs" none none 0 100 0]
          ["mine", "other", "theirs"] 13).activeSessions.filter
          (fun r => !(r.userId == 1 && !(r.sessionId == "mine"))) ∧
      (∀ r ∈ (Db.mk [] [] [] [] []
          [ActiveSessionRow.mk 10 1 "mine" none none 0 100 0,
           ActiveSessionRow.mk 11 1 "other" none none 0 100 0,
           ActiveSessionRow.mk 12 2 "theirs" none none 0 100 0]
          ["mine", "other", "theirs"] 13).activeSessions,
        r.sessionId = "mine" → r ∈ db'.activeSessions) ∧
      (∀ r ∈ (Db.mk [] [] [] [] []
          [ActiveSessionRow.mk 10 1 "mine" none none 0 100 0,
           ActiveSessionRow.mk 11 1 "other" none none 0 100 0,
           ActiveSessionRow.mk 12 2 "theirs" none none 0 100 0]
          ["mine", "other", "theirs"] 13).activeSessions,
        r.userId = 1 → r.sessionId ≠ "mine" → r ∉ db'.activeSessions) ∧
      (∀ r ∈ db'.activeSessions, r ∈ (Db.mk [] [] [] [] []
          [ActiveSessionRow.mk 10 1 "mine" none none 0 100 0,
           ActiveSessionRow.mk 11 1 "other" none none 0 100 0,
           ActiveSessionRow.mk 12 2 "theirs" none none 0 100 0]
          ["mine", "other", "theirs"] 13).activeSessions) :=
  revoke_all_other_sessions_keeps_current _ _ 1 "mine" (by decide) (by decide)

/-- After the setup upsert, the caller's `totp_secrets` row is present but
disabled, so `has_2fa_enabled` stays false. -/
theorem has_2fa_after_upsert (db : Db) (u : Nat) (s : String) :
    has_2fa_enabled (upsertTotpSecret db u s) u = false := by
  rw [upsertTotpSecret]
  by_cases hex : (findTotp db u).isSome
  · rw [if_pos hex]
    obtain ⟨r0, hr0⟩ := Option.isSome_iff_exists.mp hex
    rw [findTotp] at hr0
    have hr0p : (r0.userId == u) = true :=
      List.find?_some (p := fun (r : TotpSecretRow) => r.userId == u) hr0
    have hmap := find?_totp_map db.totpSecrets u
      (fun t => if t.userId == u then { t with secret := s, enabled := false } else t)
      (fun t => by by_cases hc : (t.userId == u) = true <;> simp [hc])
    rw [has_2fa_enabled, findTotp]
    simp only []
    rw [hmap, hr0]
    have heq : r0.userId = u := by simpa using hr0p
    simp [heq]
  · rw [if_neg hex]
    have hnone : db.totpSecrets.find? (fun t => t.userId == u) = none := by
      cases hx : findTotp db u with
      | none => rw [findTotp] at hx; exact hx
      | some v => rw [hx] at hex; simp at hex
    rw [has_2fa_enabled, findTotp]
    simp only [List.find?_append, hnone]
    simp

/-- C10: a user whose `totp_secrets` row exists with `enabled = false`
(setup done, enable not completed) has no second factor anywhere:
`has_2fa_enabled` is false, so a correct-password login completes
directly; `verify_totp_code` rejects every code, so disable and
backup-code regeneration always fail with the 400 "Invalid code"; and
running setup alone leaves `has_2fa_enabled` false for the caller. -/
theorem pending_totp_is_no_second_factor
    (db : Db) (uid : Nat) (r : TotpSecretRow)
    (hr : findTotp db uid = some r) (hdis : r.enabled = false) :
    has_2fa_enabled db uid = false ∧
    (∀ code now, verify_totp_code db uid code now = false) ∧
    (∀ sess now code, sess.userId = some uid →
      disable_totp db sess now code = .error ⟨400, "Invalid code"⟩) ∧
    (∀ sess now code fresh saltOf, sess.userId = some uid →
      regenerate_backup_codes db sess now code fresh saltOf =
        .error ⟨400, "Invalid code"⟩) ∧
    (∀ sess h now email pw la, findLocalAuthByEmail db email = some la →
      la.userId = uid → la.passwordHash.verifies pw = true →
      ∃ db', login db sess h now email pw =
        .ok (db', { sess with userId := some uid }, .success)) ∧
    (∀ db0 sess0 secret db1 s u, setup_totp db0 sess0 secret = .ok (db1, s) →
      sess0.userId = some u → has_2fa_enabled db1 u = false) := by
  have h2fa : has_2fa_enabled db uid = false := by
    simp [has_2fa_enabled, hr, hdis]
  have hcode : ∀ code now, verify_totp_code db uid code now = false := by
    intro code now
    simp [verify_totp_code, hr, hdis]
  refine ⟨h2fa, hcode, ?_, ?_, ?_, ?_⟩
  · intro sess now code hu
    simp [disable_totp, hu, hcode]
  · intro sess now code fresh saltOf hu
    simp [regenerate_backup_codes, hu, hcode]
  · intro sess h now email pw la hla huid hverify
    have hparse : la.passwordHash.parses = true :=
      StoredHash.parses_of_verifies _ _ hverify
    subst huid
    refine ⟨(match sess.sessionId with
      | some sid => create_session db la.userId sid h none now (now + sessionTtl)
      | none => db), ?_⟩
    rw [login, hla]
    simp [hparse, hverify, h2fa]
  · intro db0 sess0 secret db1 s u hok hu
    cases hfind : db0.users.find? (fun w => w.id == u) with
    | none => simp [setup_totp, hu, hfind] at hok
    | some w =>
      simp only [setup_totp, hu, hfind, Except.ok.injEq, Prod.mk.injEq] at hok
      obtain ⟨hdb1, -⟩ := hok
      subst hdb1
      exact has_2fa_after_upsert db0 u secret

/-- C10 witness: a concrete user with a disabled TOTP row: no second
factor is demanded at login, every code is rejected, disable and
regenerate fail, and a fresh setup leaves 2FA disabled. -/
theorem pending_totp_is_no_second_factor_witness :
    has_2fa_enabled (Db.mk [UserRow.mk 1 "alice" "Alice"]
        [LocalAuthRow.mk 1 "alice@x.com" (.good "pw1" 0)]
        [TotpSecretRow.mk 1 "S" false] [] [] [] [] 2) 1 = false ∧
    verify_totp_code (Db.mk [UserRow.mk 1 "alice" "Alice"]
        [LocalAuthRow.mk 1 "alice@x.com" (.good "pw1" 0)]
        [TotpSecretRow.mk 1 "S" false] [] [] [] [] 2) 1 "7" 10 = false ∧
    disable_totp (Db.mk [UserRow.mk 1 "alice" "Alice"]
        [LocalAuthRow.mk 1 "alice@x.com" (.good "pw1" 0)]
        [TotpSecretRow.mk 1 "S" false] [] [] [] [] 2)
      (SessionState.mk (some "s") (some 1) none none) 10 "7" =
      .error ⟨400, "Invalid code"⟩ ∧
    (∃ db', login (Db.mk [UserRow.mk 1 "alice" "Alice"]
        [LocalAuthRow.mk 1 "alice@x.com" (.good "pw1" 0)]
        [TotpSecretRow.mk 1 "S" false] [] [] [] [] 2)
      (SessionState.mk (some "s") none none none)
      (RequestHeaders.mk none none) 10 "alice@x.com" "pw1" =
      .ok (db', SessionState.mk (some "s") (some 1) none none, .success)) := by
  have hm := pending_totp_is_no_second_factor
    (Db.mk [UserRow.mk 1 "alice" "Alice"]
      [LocalAuthRow.mk 1 "alice@x.com" (.good "pw1" 0)]
      [TotpSecretRow.mk 1 "S" false] [] [] [] [] 2) 1
    (TotpSecretRow.mk 1 "S" false) (by decide) (by decide)
  refine ⟨hm.1, hm.2.1 "7" 10, hm.2.2.1 _ 10 "7" (by decide), ?_⟩
  exact hm.2.2.2.2.1 (SessionState.mk (some "s") none none none)
    (RequestHeaders.mk none none) 10 "alice@x.com" "pw1"
    (LocalAuthRow.mk 1 "alice@x.com" (.good "pw1" 0))
    (by decide) (by decide) (by decide)

/-- C7: for a logged-in user with a stored (pending, disabled) TOTP
secret, `enable_totp` with a code failing the ±1 time-step check returns
the 400 "Invalid code" validation failure before any write (the secret
stays disabled); with a passing code it enables the secret and
regenerates the backup codes: exactly the 10 fresh codes are returned,
and the user's stored batch afterwards consists of exactly those 10
codes, all unused — any prior batch is gone. -/
theorem enable_totp_validates_and_regenerates
    (db : Db) (sess : SessionState) (now : Nat) (code : String)
    (fresh : Nat → String) (saltOf : Nat → Nat) (uid : Nat) (r : TotpSecretRow)
    (hu : sess.userId = some uid) (hr : findTotp db uid = some r)
    (hdis : r.enabled = false) :
    (checkCurrent r.secret code now = false →
      enable_totp db sess now code fresh saltOf =
        .error ⟨400, "Invalid code"⟩) ∧
    (checkCurrent r.secret code now = true →
      ∃ db', enable_totp db sess now code fresh saltOf =
          .ok (db', (List.range 10).map fresh) ∧
        ((List.range 10).map fresh).length = 10 ∧
        findTotp db' uid = some { r with enabled := true } ∧
        (db'.backupCodes.filter (fun b => b.userId == uid)).map
            (fun b => (b.codeHash.plain?, b.used)) =
          (List.range 10).map (fun i => (some (fresh i), false))) := by
  constructor
  · intro hfail
    simp [enable_totp, hu, hr, hfail]
  · intro hok
    refine ⟨(generate_backup_codes
        { db with totpSecrets := db.totpSecrets.map (fun t =>
            if t.userId == uid then { t with enabled := true } else t) }
        uid fresh saltOf).1, ?_, by simp, ?_, ?_⟩
    · simp only [enable_totp, hu, hr, hok, Bool.not_true, Bool.false_eq_true,
        if_false]
      rfl
    · show findTotp (generate_backup_codes
        { db with totpSecrets := db.totpSecrets.map (fun t =>
            if t.userId == uid then { t with enabled := true } else t) }
        uid fresh saltOf).1 uid = some { r with enabled := true }
      rw [findTotp] at hr ⊢
      have hrp : (r.userId == uid) = true :=
        List.find?_some (p := fun (t : TotpSecretRow) => t.userId == uid) hr
      have hmap := find?_totp_map db.totpSecrets uid
        (fun t => if t.userId == uid then { t with enabled := true } else t)
        (fun t => by by_cases hc : (t.userId == uid) = true <;> simp [hc])
      rw [generate_backup_codes]
      simp only []
      rw [hmap, hr]
      have heq : r.userId = uid := by simpa using hrp
      simp [heq]
    · show ((generate_backup_codes
        { db with totpSecrets := db.totpSecrets.map (fun t =>
            if t.userId == uid then { t with enabled := true } else t) }
        uid fresh saltOf).1.backupCodes.filter (fun b => b.userId == uid)).map
          (fun b => (b.codeHash.plain?, b.used)) =
        (List.range 10).map (fun i => (some (fresh i), false))
      rw [generate_backup_codes]
      simp only [List.filter_append, List.filter_filter]
      rw [List.filter_eq_nil_iff.mpr
        (by intro b hb; simp)]
      rw [List.filter_eq_self.mpr
        (by intro b hb
            rcases List.mem_map.mp hb with ⟨i, hi, hbi⟩
            subst hbi
            simp)]
      simp [List.map_map, StoredHash.plain?, Function.comp]

/-- C7 witness: a concrete pending user enabling TOTP: the wrong code is
a 400 "Invalid code", and the right code enables 2FA and returns exactly
10 fresh backup codes that replace the (previously present) old batch. -/
theorem enable_totp_validates_and_regenerates_witness :
    (checkCurrent "S" "999999" 40 = false ∧
      enable_totp (Db.mk [UserRow.mk 1 "alice" "Alice"] []
          [TotpSecretRow.mk 1 "S" false]
          [BackupCodeRow.mk 5 1 (.good "OLDCODE1" 3) false] [] [] [] 6)
        (SessionState.mk (some "s") (some 1) none none) 40 "999999"
        (fun i => toString (100 + i)) (fun i => i) =
        .error ⟨400, "Invalid code"⟩) ∧
    (checkCurrent "S" "20" 40 = true ∧
      ∃ db', enable_totp (Db.mk [UserRow.mk 1 "alice" "Alice"] []
          [TotpSecretRow.mk 1 "S" false]
          [BackupCodeRow.mk 5 1 (.good "OLDCODE1" 3) false] [] [] [] 6)
        (SessionState.mk (some "s") (some 1) none none) 40 "20"
        (fun i => toString (100 + i)) (fun i => i) =
        .ok (db', (List.range 10).map (fun i => toString (100 + i))) ∧
        ((List.range 10).map (fun i => toString (100 + i))).length = 10 ∧
        findTotp db' 1 = some (TotpSecretRow.mk 1 "S" true) ∧
        (db'.backupCodes.filter (fun b => b.userId == 1)).map
            (fun b => (b.codeHash.plain?, b.used)) =
          (List.range 10).map
            (fun i => (some (toString (100 + i)), false))) := by
  have hm := enable_totp_validates_and_regenerates
    (Db.mk [UserRow.mk 1 "alice" "Alice"] [] [TotpSecretRow.mk 1 "S" false]
      [BackupCodeRow.mk 5 1 (.good "OLDCODE1" 3) false] [] [] [] 6)
    (SessionState.mk (some "s") (some 1) none none) 40 "999999"
    (fun i => toString (100 + i)) (fun i => i) 1 (TotpSecretRow.mk 1 "S" false)
    (by decide) (by decide) (by decide)
  have hm2 := enable_totp_validates_and_regenerates
    (Db.mk [UserRow.mk 1 "alice" "Alice"] [] [TotpSecretRow.mk 1 "S" false]
      [BackupCodeRow.mk 5 1 (.good "OLDCODE1" 3) false] [] [] [] 6)
    (SessionState.mk (some "s") (some 1) none none) 40 "20"
    (fun i => toString (100 + i)) (fun i => i) 1 (TotpSecretRow.mk 1 "S" false)
    (by decide) (by decide) (by decide)
  exact ⟨⟨by decide, hm.1 (by decide)⟩, ⟨by decide, hm2.2 (by decide)⟩⟩

/-- The session-record upsert touches only `activeSessions` and `nextId`. -/
theorem create_session_passkeys (db : Db) (u : Nat) (sid : String)
    (h : RequestHeaders) (ip : Option String) (now expiresAt : Nat) :
    (create_session db u sid h ip now expiresAt).passkeyCredentials =
      db.passkeyCredentials := by
  rw [create_session]
  split <;> rfl

/-- The assertion check accepts a fresh counter (or a counterless
authenticator at zero) with a valid signature. -/
theorem finishPasskeyAssertion_eq_some (stored : Nat) (a : Assertion)
    (hsig : a.sigOk = true)
    (hc : stored < a.counter ∨ (a.counter = 0 ∧ stored = 0)) :
    finishPasskeyAssertion stored a = some (max stored a.counter) := by
  rw [finishPasskeyAssertion]
  rcases hc with hlt | ⟨h0, h0'⟩
  · simp [hsig, hlt]
  · simp [hsig, h0, h0']

/-- The assertion check rejects a bad signature, and rejects any counter
not strictly above the stored one except the both-zero counterless
case. -/
theorem finishPasskeyAssertion_eq_none (stored : Nat) (a : Assertion)
    (hc : a.sigOk = false ∨
      (a.counter ≤ stored ∧ ¬(a.counter = 0 ∧ stored = 0))) :
    finishPasskeyAssertion stored a = none := by
  rw [finishPasskeyAssertion]
  rcases hc with hs | ⟨hle, hnz⟩
  · simp [hs]
  · have hnl : ¬ stored < a.counter := Nat.not_lt.mpr hle
    have hz : ((a.counter == 0) && (stored == 0)) = false := by
      by_cases h1 : a.counter = 0
      · have h2 : stored ≠ 0 := fun hh => hnz ⟨h1, hh⟩
        simp [h1, h2]
      · simp [h1]
    simp [hnl, hz]

/-- C5: for a passkey authentication finish on a known credential whose
ceremony state carries the credential's stored counter: acceptance
requires a valid signature and an assertion counter strictly greater
than the stored counter (or, for counterless authenticators, both
zero); on success the stored counter is replaced by the maximum of old
and new — so every credential's stored counter is non-decreasing — and
the session principal becomes the credential's owner; an assertion
whose counter is less than or equal to the stored counter (outside the
both-zero counterless case) is rejected. -/
theorem finish_authentication_counter_policy
    (db : Db) (sess : SessionState) (h : RequestHeaders) (ip : String)
    (now : Nat) (a : Assertion) (row : PasskeyRow) (snap : List (String × Nat))
    (hsnap : sess.passkeyAuthSnapshot = some snap)
    (hrow : db.passkeyCredentials.find?
      (fun q => q.credentialId == a.credId) = some row)
    (hmatch : snap.find? (fun q => q.1 == a.credId) =
      some (a.credId, row.counter)) :
    (a.sigOk = true →
      (row.counter < a.counter ∨ (a.counter = 0 ∧ row.counter = 0)) →
      ∃ db1 sess1, finish_authentication db sess h ip now a =
          .ok (db1, sess1, row.userId) ∧
        sess1.userId = some row.userId ∧
        sess1.passkeyAuthSnapshot = none ∧
        db1.passkeyCredentials = db.passkeyCredentials.map (fun q =>
          if q.id == row.id then
            { q with counter := max q.counter (max row.counter a.counter),
                     lastUsedAt := some now }
          else q) ∧
        (∀ q ∈ db.passkeyCredentials, ∃ q1 ∈ db1.passkeyCredentials,
          q1.id = q.id ∧ q.counter ≤ q1.counter)) ∧
    ((a.sigOk = false ∨
        (a.counter ≤ row.counter ∧ ¬(a.counter = 0 ∧ row.counter = 0))) →
      finish_authentication db sess h ip now a =
        .error ⟨401, "Authentication failed: assertion rejected"⟩) := by
  constructor
  · intro hsig hc
    have hsome := finishPasskeyAssertion_eq_some row.counter a hsig hc
    have hmem : ∀ (l : List PasskeyRow), ∀ q ∈ l,
        ∃ q1 ∈ l.map (fun q => if q.id == row.id then
            { q with counter := max q.counter (max row.counter a.counter),
                     lastUsedAt := some now } else q),
          q1.id = q.id ∧ q.counter ≤ q1.counter := by
      intro l q hq
      refine ⟨_, List.mem_map_of_mem _ hq, ?_⟩
      by_cases hid : (q.id == row.id) = true
      · simp [hid, Nat.le_max_left]
      · simp [hid]
    cases hsid : sess.sessionId with
    | none =>
      refine ⟨{ db with passkeyCredentials := db.passkeyCredentials.map (fun q =>
          if q.id == row.id then
            { q with counter := max q.counter (max row.counter a.counter),
                     lastUsedAt := some now }
          else q) },
        { sess with userId := some row.userId, passkeyAuthSnapshot := none },
        ?_, rfl, rfl, rfl, hmem db.passkeyCredentials⟩
      simp only [finish_authentication, hsnap, hrow, hmatch, hsome, hsid]
    | some sid =>
      refine ⟨create_session
          { db with passkeyCredentials := db.passkeyCredentials.map (fun q =>
              if q.id == row.id then
                { q with counter := max q.counter (max row.counter a.counter),
                         lastUsedAt := some now }
              else q) }
          row.userId sid h (some ip) now (now + sessionTtl),
        { sess with userId := some row.userId, passkeyAuthSnapshot := none },
        ?_, rfl, rfl, ?_, ?_⟩
      · simp only [finish_authentication, hsnap, hrow, hmatch, hsome, hsid]
      · rw [create_session_passkeys]
      · rw [create_session_passkeys]
        exact hmem db.passkeyCredentials
  · intro hc
    have hnone := finishPasskeyAssertion_eq_none row.counter a hc
    simp only [finish_authentication, hsnap, hrow, hmatch, hnone]

/-- C5 witness: one stored credential with counter 5: an assertion with
counter 6 is accepted and the stored counter becomes 6; resubmitting
with counter 5 (and even counter 6 again after the update would be ≤) is
rejected. -/
theorem finish_authentication_counter_policy_witness :
    (∃ db1 sess1, finish_authentication
        (Db.mk [] [] [] [] [PasskeyRow.mk 7 1 "credA" 5 none] [] [] 8)
        (SessionState.mk none none none (some [("credA", 5)]))
        (RequestHeaders.mk none none) "1.2.3.4" 1000
        (Assertion.mk "credA" 6 true) = .ok (db1, sess1, 1) ∧
      sess1.userId = some 1 ∧
      sess1.passkeyAuthSnapshot = none ∧
      db1.passkeyCredentials =
        [PasskeyRow.mk 7 1 "credA" 5 none].map (fun q =>
          if q.id == 7 then
            { q with counter := max q.counter (max 5 6),
                     lastUsedAt := some 1000 }
          else q) ∧
      (∀ q ∈ [PasskeyRow.mk 7 1 "credA" 5 none],
        ∃ q1 ∈ db1.passkeyCredentials, q1.id = q.id ∧
          q.counter ≤ q1.counter)) ∧
    finish_authentication
        (Db.mk [] [] [] [] [PasskeyRow.mk 7 1 "credA" 5 none] [] [] 8)
        (SessionState.mk none none none (some [("credA", 5)]))
        (RequestHeaders.mk none none) "1.2.3.4" 1000
        (Assertion.mk "credA" 5 true) =
      .error ⟨401, "Authentication failed: assertion rejected"⟩ := by
  have h1 := finish_authentication_counter_policy
    (Db.mk [] [] [] [] [PasskeyRow.mk 7 1 "credA" 5 none] [] [] 8)
    (SessionState.mk none none none (some [("credA", 5)]))
    (RequestHeaders.mk none none) "1.2.3.4" 1000
    (Assertion.mk "credA" 6 true) (PasskeyRow.mk 7 1 "credA" 5 none)
    [("credA", 5)] (by decide) (by decide) (by decide)
  have h2 := finish_authentication_counter_policy
    (Db.mk [] [] [] [] [PasskeyRow.mk 7 1 "credA" 5 none] [] [] 8)
    (SessionState.mk none none none (some [("credA", 5)]))
    (RequestHeaders.mk none none) "1.2.3.4" 1000
    (Assertion.mk "credA" 5 true) (PasskeyRow.mk 7 1 "credA" 5 none)
    [("credA", 5)] (by decide) (by decide) (by decide)
  exact ⟨h1.1 (by decide) (by decide),
    h2.2 (Or.inr ⟨by decide, by decide⟩)⟩

/-- C1: OAuth identity resolution is not idempotent for OAuth-created
accounts. The callback resolves by email through `local_auths`, but a
user it creates gets no `local_auths` row, so on an empty store the
first Google callback for an email creates user 1 while the second
callback for the very same email fails to find that user and creates a
fresh user (id 3) instead of resolving to user 1. -/
theorem google_callback_not_idempotent_for_new_users :
    (google_callback (Db.mk [] [] [] [] [] [] [] 1)
      (SessionState.mk (some "s1") none none none)
      (RequestHeaders.mk none none) 0
      (GoogleProfile.mk "alice@example.com" "Alice")).2.2 = 1 ∧
    (google_callback
      (google_callback (Db.mk [] [] [] [] [] [] [] 1)
        (SessionState.mk (some "s1") none none none)
        (RequestHeaders.mk none none) 0
        (GoogleProfile.mk "alice@example.com" "Alice")).1
      (SessionState.mk (some "s2") none none none)
      (RequestHeaders.mk none none) 30
      (GoogleProfile.mk "alice@example.com" "Alice")).2.2 = 3 ∧
    (1 : Nat) ≠ 3 := by
  refine ⟨rfl, rfl, by decide⟩

/-- C2: second-factor completion performs no Session Tracker upsert: any
successful `verify_totp` sets the session principal to the pending user
and discards the pending key, but leaves `active_sessions` (and the
session store) exactly as they were — no ActiveSessionRecord is upserted
— even when a session identifier is available. -/
theorem verify_totp_success_writes_no_session_record
    (db : Db) (sess : SessionState) (now : Nat) (code : String)
    (db' : Db) (sess' : SessionState)
    (hok : verify_totp db sess now code = .ok (db', sess')) :
    db'.activeSessions = db.activeSessions ∧
    db'.sessionStore = db.sessionStore ∧
    sess'.userId = sess.pending2faUserId ∧
    sess'.pending2faUserId = none := by
  rw [verify_totp] at hok
  cases hpend : sess.pending2faUserId with
  | none => rw [hpend] at hok; exact absurd hok (by simp)
  | some uid =>
    rw [hpend] at hok
    simp only [] at hok
    by_cases htotp : verify_totp_code db uid code now = true
    · rw [if_pos htotp] at hok
      injection hok with hpair
      injection hpair with hdb hsess
      subst hdb; subst hsess
      exact ⟨rfl, rfl, by simp [hpend], rfl⟩
    · rw [if_neg htotp] at hok
      rw [verify_and_consume_backup_code] at hok
      cases hscan : scanBackupCodes code
          (db.backupCodes.filter (fun r => r.userId == uid && !r.used)) with
      | error e => rw [hscan] at hok; exact absurd hok (by simp)
      | ok found =>
        cases found with
        | none => rw [hscan] at hok; exact absurd hok (by simp)
        | some i =>
          rw [hscan] at hok
          injection hok with hpair
          injection hpair with hdb hsess
          subst hdb; subst hsess
          exact ⟨rfl, rfl, by simp [hpend], rfl⟩

/-- C2 witness: a concrete pending-2FA session with a valid TOTP code and
a session identifier present: completion succeeds, the principal is set,
the pending key is gone, and still no session record exists. -/
theorem verify_totp_success_writes_no_session_record_witness :
    verify_totp (Db.mk [UserRow.mk 1 "alice" "Alice"] []
        [TotpSecretRow.mk 1 "S" true] [] [] [] [] 2)
      (SessionState.mk (some "sid1") none (some 1) none) 10 "7" =
      .ok (Db.mk [UserRow.mk 1 "alice" "Alice"] []
        [TotpSecretRow.mk 1 "S" true] [] [] [] [] 2,
        SessionState.mk (some "sid1") (some 1) none none) ∧
    ((Db.mk [UserRow.mk 1 "alice" "Alice"] []
        [TotpSecretRow.mk 1 "S" true] [] [] [] [] 2).activeSessions =
      (Db.mk [UserRow.mk 1 "alice" "Alice"] []
        [TotpSecretRow.mk 1 "S" true] [] [] [] [] 2).activeSessions ∧
      (Db.mk [UserRow.mk 1 "alice" "Alice"] []
        [TotpSecretRow.mk 1 "S" true] [] [] [] [] 2).sessionStore =
      (Db.mk [UserRow.mk 1 "alice" "Alice"] []
        [TotpSecretRow.mk 1 "S" true] [] [] [] [] 2).sessionStore ∧
      (SessionState.mk (some "sid1") (some 1) none none).userId =
        (SessionState.mk (some "sid1") none (some 1) none).pending2faUserId ∧
      (SessionState.mk (some "sid1") (some 1) none
        none).pending2faUserId = none) :=
  ⟨by decide,
    verify_totp_success_writes_no_session_record
      (Db.mk [UserRow.mk 1 "alice" "Alice"] []
        [TotpSecretRow.mk 1 "S" true] [] [] [] [] 2)
      (SessionState.mk (some "sid1") none (some 1) none) 10 "7"
      (Db.mk [UserRow.mk 1 "alice" "Alice"] []
        [TotpSecretRow.mk 1 "S" true] [] [] [] [] 2)
      (SessionState.mk (some "sid1") (some 1) none none) (by decide)⟩

/-- C6 counterexample: a wrong password at login and a wrong code at
second-factor verification are both caller-visible credential failures,
yet carry different messages ("Invalid email or password" versus
"Invalid code"), so the failure causes are not collapsed to one and the
same message. -/
theorem credential_failure_messages_not_uniform :
    login (Db.mk [UserRow.mk 1 "alice" "Alice"]
        [LocalAuthRow.mk 1 "alice@x.com" (.good "pw1" 0)] [] [] [] [] [] 2)
      (SessionState.mk (some "s") none none none)
      (RequestHeaders.mk none none) 0 "alice@x.com" "wrong" =
      .error ⟨401, "Invalid email or password"⟩ ∧
    verify_totp (Db.mk [UserRow.mk 1 "alice" "Alice"] []
        [TotpSecretRow.mk 1 "S" true] [] [] [] [] 2)
      (SessionState.mk (some "s") none (some 1) none) 10 "999999" =
      .error ⟨401, "Invalid code"⟩ ∧
    ("Invalid email or password" : String) ≠ "Invalid code" := by
  refine ⟨by decide, by decide, by decide⟩

/-- C6 amended: each of the four credential-verification failures is
reported with status 401, but with a cause-specific message — wrong
password: "Invalid email or password"; wrong TOTP/backup code: "Invalid
code"; unknown passkey credential id: "Unknown credential"; failed
passkey assertion: a message beginning "Authentication failed:" — so the
causes are distinguishable by the response message. -/
theorem credential_failures_all_401_distinct_messages :
    (∀ db sess h now email pw la, findLocalAuthByEmail db email = some la →
      la.passwordHash.verifies pw = false →
      login db sess h now email pw =
        .error ⟨401, "Invalid email or password"⟩) ∧
    (∀ db sess now code uid, sess.pending2faUserId = some uid →
      verify_totp_code db uid code now = false →
      verify_and_consume_backup_code db uid code = .ok (db, false) →
      verify_totp db sess now code = .error ⟨401, "Invalid code"⟩) ∧
    (∀ db sess h ip now a snap, sess.passkeyAuthSnapshot = some snap →
      db.passkeyCredentials.find?
        (fun q => q.credentialId == a.credId) = none →
      finish_authentication db sess h ip now a =
        .error ⟨401, "Unknown credential"⟩) ∧
    (∀ db sess h ip now a snap row,
      sess.passkeyAuthSnapshot = some snap →
      db.passkeyCredentials.find?
        (fun q => q.credentialId == a.credId) = some row →
      snap.find? (fun q => q.1 == a.credId) = some (a.credId, row.counter) →
      a.sigOk = false →
      finish_authentication db sess h ip now a =
        .error ⟨401, "Authentication failed: assertion rejected"⟩) ∧
    ("Invalid email or password" : String) ≠ "Invalid code" ∧
    ("Invalid email or password" : String) ≠ "Unknown credential" ∧
    ("Invalid code" : String) ≠ "Unknown credential" := by
  refine ⟨?_, ?_, ?_, ?_, by decide, by decide, by decide⟩
  · intro db sess h now email pw la hla hbad
    cases hhash : la.passwordHash with
    | good p salt =>
      have : la.passwordHash.parses = true := by simp [hhash, StoredHash.parses]
      simp [login, hla, this, hbad]
    | corrupt raw =>
      simp [login, hla, hhash, StoredHash.parses]
  · intro db sess now code uid hpend hcode hback
    rw [verify_totp, hpend]
    simp only [hcode, Bool.false_eq_true, if_false, hback]
  · intro db sess h ip now a snap hsnap hnone
    simp [finish_authentication, hsnap, hnone]
  · intro db sess h ip now a snap row hsnap hrow hmatch hsig
    have hn : finishPasskeyAssertion row.counter a = none := by
      rw [finishPasskeyAssertion]
      simp [hsig]
    simp only [finish_authentication, hsnap, hrow, hmatch, hn]

/-- C6 amended witness: concrete instances of all four failure causes,
each receiving its own 401 message. -/
theorem credential_failures_all_401_distinct_messages_witness :
    login (Db.mk [UserRow.mk 1 "alice" "Alice"]
        [LocalAuthRow.mk 1 "alice@x.com" (.good "pw1" 0)] [] [] [] [] [] 2)
      (SessionState.mk (some "s") none none none)
      (RequestHeaders.mk none none) 0 "alice@x.com" "wrong" =
      .error ⟨401, "Invalid email or password"⟩ ∧
    verify_totp (Db.mk [UserRow.mk 1 "alice" "Alice"] []
        [TotpSecretRow.mk 1 "S" true] [] [] [] [] 2)
      (SessionState.mk (some "s") none (some 1) none) 10 "999999" =
      .error ⟨401, "Invalid code"⟩ ∧
    finish_authentication (Db.mk [] [] [] [] [] [] [] 1)
      (SessionState.mk none none none (some []))
      (RequestHeaders.mk none none) "1.2.3.4" 0
      (Assertion.mk "nosuch" 3 true) =
      .error ⟨401, "Unknown credential"⟩ ∧
    finish_authentication
      (Db.mk [] [] [] [] [PasskeyRow.mk 7 1 "credA" 5 none] [] [] 8)
      (SessionState.mk none none none (some [("credA", 5)]))
      (RequestHeaders.mk none none) "1.2.3.4" 0
      (Assertion.mk "credA" 9 false) =
      .error ⟨401, "Authentication failed: assertion rejected"⟩ := by
  have hm := credential_failures_all_401_distinct_messages
  refine ⟨?_, ?_, ?_, ?_⟩
  · exact hm.1 _ _ _ 0 "alice@x.com" "wrong"
      (LocalAuthRow.mk 1 "alice@x.com" (.good "pw1" 0)) (by decide) (by decide)
  · exact hm.2.1 _ _ 10 "999999" 1 (by decide) (by decide) (by decide)
  · exact hm.2.2.1 _ _ _ "1.2.3.4" 0 (Assertion.mk "nosuch" 3 true) []
      (by decide) (by decide)
  · exact hm.2.2.2.1 _ _ _ "1.2.3.4" 0 (Assertion.mk "credA" 9 false)
      [("credA", 5)] (PasskeyRow.mk 7 1 "credA" 5 none)
      (by decide) (by decide) (by decide) (by decide)

/-- A successful scan splits its input at the first row whose hash
verifies the submitted code. -/
theorem scan_some_split (c : String) (l : List BackupCodeRow) (i : Nat)
    (h : scanBackupCodes c l = .ok (some i)) :
    ∃ l₁ r l₂, l = l₁ ++ r :: l₂ ∧ r.id = i ∧
      r.codeHash.verifies c = true ∧
      ∀ r' ∈ l₁, r'.codeHash.verifies c = false := by
  induction l with
  | nil => exact absurd h (by simp [scanBackupCodes])
  | cons x xs ih =>
    by_cases hp : x.codeHash.parses = true
    · by_cases hv : x.codeHash.verifies c = true
      · rw [scanBackupCodes] at h
        simp only [hp, hv, Bool.not_true, Bool.false_eq_true, if_false,
          if_true] at h
        injection h with h1
        injection h1 with h2
        exact ⟨[], x, xs, by simp, h2, hv, by simp⟩
      · have hvf : x.codeHash.verifies c = false := by
          cases hx : x.codeHash.verifies c
          · rfl
          · exact absurd hx hv
        rw [scanBackupCodes] at h
        simp only [hp, hvf, Bool.not_true, Bool.false_eq_true, if_false] at h
        obtain ⟨l₁, r, l₂, he, hi, hvr, hall⟩ := ih h
        refine ⟨x :: l₁, r, l₂, by simp [he], hi, hvr, ?_⟩
        intro r' hr'
        rcases List.mem_cons.mp hr' with rfl | hmem
        · exact hvf
        · exact hall r' hmem
    · have hpf : x.codeHash.parses = false := by
        cases hx : x.codeHash.parses
        · rfl
        · exact absurd hx hp
      rw [scanBackupCodes] at h
      simp only [hpf, Bool.not_false, if_true] at h
      exact absurd h (by simp)

/-- A scan over rows that all parse and none of which verifies the code
reaches the end and reports no match. -/
theorem scan_none_of_no_match (c : String) (l : List BackupCodeRow)
    (h : ∀ r ∈ l, r.codeHash.parses = true ∧ r.codeHash.verifies c = false) :
    scanBackupCodes c l = .ok none := by
  induction l with
  | nil => rfl
  | cons x xs ih =>
    obtain ⟨hp, hv⟩ := h x (by simp)
    rw [scanBackupCodes]
    simp only [hp, hv, Bool.not_true, Bool.false_eq_true, if_false]
    exact ih (fun r hr => h r (List.mem_cons_of_mem _ hr))

/-- A successful consume identifies the first unused matching row of the
user and marks exactly that row. -/
theorem consume_success_shape (db : Db) (uid : Nat) (c : String) (db₁ : Db)
    (h : verify_and_consume_backup_code db uid c = .ok (db₁, true)) :
    ∃ l₁ r l₂,
      db.backupCodes.filter (fun b => b.userId == uid && !b.used) =
        l₁ ++ r :: l₂ ∧
      r ∈ db.backupCodes ∧ r.userId = uid ∧ r.used = false ∧
      r.codeHash.verifies c = true ∧
      (∀ r' ∈ l₁, r'.codeHash.verifies c = false) ∧
      db₁ = markBackupCodeUsed db r.id := by
  rw [verify_and_consume_backup_code] at h
  cases hscan : scanBackupCodes c
      (db.backupCodes.filter (fun b => b.userId == uid && !b.used)) with
  | error e => rw [hscan] at h; exact absurd h (by simp)
  | ok o =>
    cases o with
    | none => rw [hscan] at h; exact absurd h (by simp)
    | some i =>
      rw [hscan] at h
      injection h with hpair
      injection hpair with hdb hflag
      obtain ⟨l₁, r, l₂, he, hi, hv, hall⟩ := scan_some_split c _ i hscan
      have hrmem : r ∈ db.backupCodes.filter
          (fun b => b.userId == uid && !b.used) := by
        rw [he]; simp
      have hrf := List.mem_filter.mp hrmem
      have hcond := hrf.2
      simp only [Bool.and_eq_true, beq_iff_eq, Bool.not_eq_true'] at hcond
      refine ⟨l₁, r, l₂, he, hrf.1, hcond.1, hcond.2, hv, hall, ?_⟩
      rw [← hdb, hi]

/-- Any consume outcome rewrites the row list through a function that
keeps id, owner and hash, and never clears a used flag. -/
theorem consume_rows_shape (db : Db) (uid : Nat) (c : String) (db₁ : Db)
    (t : Bool)
    (h : verify_and_consume_backup_code db uid c = .ok (db₁, t)) :
    ∃ f : BackupCodeRow → BackupCodeRow,
      db₁.backupCodes = db.backupCodes.map f ∧
      ∀ b, (f b).id = b.id ∧ (f b).userId = b.userId ∧
        (f b).codeHash = b.codeHash ∧ (b.used = true → (f b).used = true) := by
  rw [verify_and_consume_backup_code] at h
  cases hscan : scanBackupCodes c
      (db.backupCodes.filter (fun b => b.userId == uid && !b.used)) with
  | error e => rw [hscan] at h; exact absurd h (by simp)
  | ok o =>
    cases o with
    | none =>
      rw [hscan] at h
      injection h with hpair
      injection hpair with hdb hflag
      refine ⟨fun b => b, by rw [← hdb]; simp, by simp⟩
    | some i =>
      rw [hscan] at h
      injection h with hpair
      injection hpair with hdb hflag
      refine ⟨fun b => if b.id == i then { b with used := true } else b,
        by rw [← hdb]; rfl, ?_⟩
      intro b
      by_cases hb : (b.id == i) = true
      · simp [hb]
      · simp [hb]

/-- When no unused row of the user matches, a consume scans to the end,
changes nothing and reports failure. -/
theorem consume_of_no_unused_match (db : Db) (uid : Nat) (c : String)
    (hinv : noUnusedMatch db uid c) :
    verify_and_consume_backup_code db uid c = .ok (db, false) := by
  have hnone := scan_none_of_no_match c
    (db.backupCodes.filter (fun b => b.userId == uid && !b.used)) ?_
  · rw [verify_and_consume_backup_code, hnone]
  · intro r hr
    have hrf := List.mem_filter.mp hr
    have hcond := hrf.2
    simp only [Bool.and_eq_true, beq_iff_eq, Bool.not_eq_true'] at hcond
    exact hinv r hrf.1 hcond.1 hcond.2

/-- Consumes (of any code, by the same user) preserve the no-unused-match
invariant: they never add rows and never clear a used flag. -/
theorem consume_preserves_no_unused_match (db db₁ : Db) (uid : Nat)
    (c c' : String) (t : Bool)
    (h : verify_and_consume_backup_code db uid c' = .ok (db₁, t))
    (hinv : noUnusedMatch db uid c) : noUnusedMatch db₁ uid c := by
  obtain ⟨f, hrows, hf⟩ := consume_rows_shape db uid c' db₁ t h
  intro r₁ hr₁ hu₁ hnu₁
  rw [hrows] at hr₁
  rcases List.mem_map.mp hr₁ with ⟨b, hb, rfl⟩
  obtain ⟨hid, huid, hhash, hmono⟩ := hf b
  have hbu : b.used = false := by
    cases hx : b.used
    · rfl
    · exact absurd (hmono hx) (by simp [hnu₁])
  have hres := hinv b hb (by rw [← huid]; exact hu₁) hbu
  rw [hhash]
  exact hres

/-- The invariant survives an arbitrary sequence of later consume
attempts. -/
theorem consumeSteps_preserve_no_unused_match (uid : Nat) (c : String) :
    ∀ (cs : List String) (db : Db), noUnusedMatch db uid c →
      noUnusedMatch (consumeSteps db uid cs) uid c := by
  intro cs
  induction cs with
  | nil => intro db hinv; simpa [consumeSteps] using hinv
  | cons c' cs ih =>
    intro db hinv
    rw [consumeSteps]
    cases hstep : verify_and_consume_backup_code db uid c' with
    | error e => exact ih db hinv
    | ok p =>
      obtain ⟨db', t⟩ := p
      exact ih db' (consume_preserves_no_unused_match db db' uid c c' t hstep hinv)

/-- A successful consume of `c` establishes the invariant for `c`: the
single matching row is now used, and with the user's codes pairwise
distinct no other unused row can match. -/
theorem consume_success_establishes (db : Db) (uid : Nat) (c : String)
    (db₁ : Db)
    (hparse : ∀ r ∈ db.backupCodes, r.userId = uid → r.used = false →
      r.codeHash.parses = true)
    (huniq : ∀ r ∈ db.backupCodes, ∀ r' ∈ db.backupCodes,
      r.userId = uid → r'.userId = uid →
      r.codeHash.verifies c = true → r'.codeHash.verifies c = true →
      r.id = r'.id)
    (hsucc : verify_and_consume_backup_code db uid c = .ok (db₁, true)) :
    noUnusedMatch db₁ uid c := by
  obtain ⟨l₁, r, l₂, hsplit, hrmem, hruid, hrunused, hrv, hall, hdb₁⟩ :=
    consume_success_shape db uid c db₁ hsucc
  subst hdb₁
  intro r₁ hr₁ hu₁ hnu₁
  simp only [markBackupCodeUsed] at hr₁
  rcases List.mem_map.mp hr₁ with ⟨b, hb, rfl⟩
  by_cases hbid : (b.id == r.id) = true
  · exfalso
    rw [if_pos hbid] at hnu₁
    simp at hnu₁
  · rw [if_neg hbid] at hu₁ hnu₁ ⊢
    refine ⟨hparse b hb hu₁ hnu₁, ?_⟩
    cases hbv : b.codeHash.verifies c
    · rfl
    · exfalso
      have hideq := huniq b hb r hrmem hu₁ hruid hbv hrv
      exact hbid (by simp [hideq])

/-- C4: backup codes are one-time. A successful verification of code `c`
scans only the user's unused rows in order, marks exactly the first
hash-matching row used and stops; every consume outcome rewrites rows
through a function that keeps id, owner and hash and never clears a used
flag (used only ever goes false to true); and — with the user's stored
codes pairwise distinct — after the success every later submission of
`c`, regardless of intervening attempts, scans to the end and fails. -/
theorem backup_codes_are_one_time
    (db : Db) (uid : Nat) (c : String) (db₁ : Db)
    (hparse : ∀ r ∈ db.backupCodes, r.userId = uid → r.used = false →
      r.codeHash.parses = true)
    (huniq : ∀ r ∈ db.backupCodes, ∀ r' ∈ db.backupCodes,
      r.userId = uid → r'.userId = uid →
      r.codeHash.verifies c = true → r'.codeHash.verifies c = true →
      r.id = r'.id)
    (hsucc : verify_and_consume_backup_code db uid c = .ok (db₁, true)) :
    (∃ l₁ r l₂,
      db.backupCodes.filter (fun b => b.userId == uid && !b.used) =
        l₁ ++ r :: l₂ ∧
      r ∈ db.backupCodes ∧ r.userId = uid ∧ r.used = false ∧
      r.codeHash.verifies c = true ∧
      (∀ r' ∈ l₁, r'.codeHash.verifies c = false) ∧
      db₁ = markBackupCodeUsed db r.id) ∧
    (∃ f : BackupCodeRow → BackupCodeRow,
      db₁.backupCodes = db.backupCodes.map f ∧
      ∀ b, (f b).id = b.id ∧ (f b).userId = b.userId ∧
        (f b).codeHash = b.codeHash ∧ (b.used = true → (f b).used = true)) ∧
    (∀ cs : List String,
      verify_and_consume_backup_code (consumeSteps db₁ uid cs) uid c =
        .ok (consumeSteps db₁ uid cs, false)) := by
  refine ⟨consume_success_shape db uid c db₁ hsucc,
    consume_rows_shape db uid c db₁ true hsucc, ?_⟩
  intro cs
  exact consume_of_no_unused_match _ uid c
    (consumeSteps_preserve_no_unused_match uid c cs db₁
      (consume_success_establishes db uid c db₁ hparse huniq hsucc))

/-- C4 witness: a user with two distinct stored codes: submitting
"AAAA1111" succeeds once, and after an intervening attempt with the other
code a second submission of "AAAA1111" fails and changes nothing. -/
theorem backup_codes_are_one_time_witness :
    verify_and_consume_backup_code (Db.mk [] [] []
        [BackupCodeRow.mk 1 7 (.good "AAAA1111" 0) false,
         BackupCodeRow.mk 2 7 (.good "BBBB2222" 1) false]
        [] [] [] 3) 7 "AAAA1111" =
      .ok (Db.mk [] [] []
        [BackupCodeRow.mk 1 7 (.good "AAAA1111" 0) true,
         BackupCodeRow.mk 2 7 (.good "BBBB2222" 1) false]
        [] [] [] 3, true) ∧
    verify_and_consume_backup_code
        (consumeSteps (Db.mk [] [] []
          [BackupCodeRow.mk 1 7 (.good "AAAA1111" 0) true,
           BackupCodeRow.mk 2 7 (.good "BBBB2222" 1) false]
          [] [] [] 3) 7 ["BBBB2222"]) 7 "AAAA1111" =
      .ok (consumeSteps (Db.mk [] [] []
          [BackupCodeRow.mk 1 7 (.good "AAAA1111" 0) true,
           BackupCodeRow.mk 2 7 (.good "BBBB2222" 1) false]
          [] [] [] 3) 7 ["BBBB2222"], false) :=
  ⟨by decide,
    (backup_codes_are_one_time
      (Db.mk [] [] []
        [BackupCodeRow.mk 1 7 (.good "AAAA1111" 0) false,
         BackupCodeRow.mk 2 7 (.good "BBBB2222" 1) false]
        [] [] [] 3) 7 "AAAA1111"
      (Db.mk [] [] []
        [BackupCodeRow.mk 1 7 (.good "AAAA1111" 0) true,
         BackupCodeRow.mk 2 7 (.good "BBBB2222" 1) false]
        [] [] [] 3)
      (by decide) (by decide) (by decide)).2.2 ["BBBB2222"]⟩

end Praxis
